import Mathlib

/-!
Verification of the download-convert-cleanup pipeline of
`Descarga_Videos_Youtube.py`.

The Python source is shallowly embedded: strings and filesystem paths are
Lean `String`s, the filesystem is the set of existing paths (a duplicate-free
`List String`), and the external collaborators (yt-dlp, the ffmpeg processes,
the moviepy decoder) are oracles packaged in a `World` structure.  Every
function below mirrors the code of the source file; doc comments cite the
Python definition being modelled.
-/

namespace YT

/-- Characters treated as whitespace by the stripping operation
(modelling the ASCII fragment of Python str.strip with no argument). -/
def isPySpace (c : Char) : Bool :=
  c == ' ' || c == '\t' || c == '\n' || c == '\r' || c == '\x0b' || c == '\x0c'

/-- Drop leading and trailing characters satisfying p (Python strip). -/
def stripBy (p : Char → Bool) (l : List Char) : List Char :=
  ((l.dropWhile p).reverse.dropWhile p).reverse

/-- Python str.strip() with no argument. -/
def pyStrip (s : String) : String := String.mk (stripBy isPySpace s.data)

/-- Concatenation of strings, kept explicit at the character-list level. -/
def strCat (a b : String) : String := String.mk (a.data ++ b.data)

/-- Is the first list a prefix of the second (Boolean test). -/
def isPrefixList : List Char → List Char → Bool
  | [], _ => true
  | _ :: _, [] => false
  | a :: as, b :: bs => a == b && isPrefixList as bs

/-- Python s.startswith(p): p a prefix of s. -/
def pyStartswith (p s : String) : Bool := isPrefixList p.data s.data

/-- Does pat occur as a contiguous substring of the list. -/
def hasSubstr (pat : List Char) : List Char → Bool
  | [] => isPrefixList pat []
  | c :: rest => isPrefixList pat (c :: rest) || hasSubstr pat rest

/-- Worker for replaceDel; the fuel argument (always at least the length of
the list) makes the recursion structural, hence kernel-computable. -/
def replaceDelAux (pat : List Char) : ℕ → List Char → List Char
  | 0, l => l
  | _ + 1, [] => []
  | n + 1, c :: rest =>
    if 0 < pat.length ∧ isPrefixList pat (c :: rest) = true then
      replaceDelAux pat n (rest.drop (pat.length - 1))
    else
      c :: replaceDelAux pat n rest

/-- Python s.replace(pat, ""): delete every (left-to-right, non-overlapping)
occurrence of a non-empty pat. -/
def replaceDel (pat : List Char) (l : List Char) : List Char :=
  replaceDelAux pat l.length l

/-- String wrapper for replaceDel. -/
def pyReplaceDel (pat s : String) : String := String.mk (replaceDel pat.data s.data)

/-- Python str.lower(), ASCII fragment. -/
def pyLower (s : String) : String := String.mk (s.data.map Char.toLower)

/-- Decimal digit test. -/
def isDig (c : Char) : Bool := '0' ≤ c && c ≤ '9'

/-- Value of a list of decimal digits. -/
def digitsToNat (l : List Char) : ℕ := l.foldl (fun n c => 10 * n + (c.toNat - 48)) 0

/-- Exponent part of a float literal: optional sign then digits. -/
def parseExpPart (l : List Char) : Option ℤ :=
  match l with
  | [] => none
  | '+' :: rest => if rest ≠ [] ∧ rest.all isDig = true then some (digitsToNat rest) else none
  | '-' :: rest => if rest ≠ [] ∧ rest.all isDig = true then some (-(digitsToNat rest : ℤ)) else none
  | _ => if l.all isDig then some (digitsToNat l) else none

/-- Multiply an exact rational by a power of ten (kernel-computable form of
q times ten to the k). -/
def scale10 (q : ℚ) (k : ℤ) : ℚ :=
  match k with
  | .ofNat n => mkRat (q.num * 10 ^ n) q.den
  | .negSucc n => mkRat q.num (q.den * 10 ^ (n + 1))

/-- Negation of an exact rational (kernel-computable form of -q). -/
def ratNeg (q : ℚ) : ℚ := mkRat (-q.num) q.den

/-- Unsigned mantissa: digits, optionally a point and more digits; at least
one digit overall.  Returns the value and the unconsumed remainder. -/
def parseMant (l : List Char) : Option (ℚ × List Char) :=
  let ip := l.takeWhile isDig
  let r1 := l.dropWhile isDig
  match r1 with
  | '.' :: r2 =>
    let fp := r2.takeWhile isDig
    let r3 := r2.dropWhile isDig
    if ip.length = 0 ∧ fp.length = 0 then none
    else some
      (mkRat (digitsToNat ip * 10 ^ fp.length + digitsToNat fp) (10 ^ fp.length), r3)
  | _ => if ip.length = 0 then none else some (mkRat (digitsToNat ip) 1, r1)

/-- Mantissa followed by an optional exponent; the whole list must be consumed. -/
def pyFloatCore (l : List Char) : Option ℚ :=
  match parseMant l with
  | none => none
  | some (m, rest) =>
    match rest with
    | [] => some m
    | e :: erest =>
      if e = 'e' ∨ e = 'E' then
        match parseExpPart erest with
        | some k => some (scale10 m k)
        | none => none
      else none

/-- Optional single leading sign. -/
def pySigned (l : List Char) : Option ℚ :=
  match l with
  | '+' :: rest => pyFloatCore rest
  | '-' :: rest => (pyFloatCore rest).map ratNeg
  | _ => pyFloatCore l

/-- Python float(s) as an exact rational, on the sign/digits/point/exponent
fragment of its grammar (surrounding whitespace allowed).  Underscore digit
separators and the inf/nan forms are outside the modelled fragment and parse
to none; no string the claims exercise uses them. -/
def pyFloat? (s : String) : Option ℚ :=
  pySigned (stripBy isPySpace s.data)

/-- The nine characters sanitize_filename replaces (regex `[<>:"/\\|?*]`,
source line 24). -/
def badChar (c : Char) : Bool :=
  c == '<' || c == '>' || c == ':' || c == '"' || c == '/' ||
    c == '\\' || c == '|' || c == '?' || c == '*'

/-- The substitution applied to each character by re.sub (source line 24). -/
def replBad (c : Char) : Char := if badChar c then '_' else c

/-- sanitize_filename (source lines 16-27): replace the nine conflictive
characters by an underscore, then strip surrounding whitespace. -/
def sanitize_filename (s : String) : String :=
  pyStrip (String.mk (s.data.map replBad))

/-- One record handed to the yt-dlp progress hook: its status entry and its
optional percent-string entry (d.get picks the default when absent). -/
structure ProgressRecord where
  status : String
  percent_str : Option String
deriving DecidableEq

/-- Events emitted through the DownloadSignals object (source lines 148-152). -/
inductive Event where
  | progress (value : ℚ)
  | finished (msg : String)
  | error (msg : String)
deriving DecidableEq

/-- The cleaning applied to the percent string in actualizar_progreso
(source lines 172-174): strip, then delete the percent sign, then the two
ANSI colour codes, in that order. -/
def cleanPercent (ps : String) : String :=
  pyReplaceDel "\x1b[0m" (pyReplaceDel "\x1b[0;94m" (pyReplaceDel "%" (pyStrip ps)))

/-- The float conversion with its ValueError fallback (source lines 175-178). -/
def normalizar_porcentaje (ps : String) : ℚ :=
  (pyFloat? (cleanPercent ps)).getD 0

/-- DownloadTask.actualizar_progreso (source lines 169-179): on a record whose
status is downloading, emit one progress event with the normalized percent
(default percent string 0 per cent); otherwise emit nothing. -/
def actualizar_progreso (d : ProgressRecord) : List Event :=
  if d.status = "downloading" then
    [Event.progress (normalizar_porcentaje (d.percent_str.getD "0%"))]
  else []

/-- The filesystem: the set of paths that currently exist, as a
duplicate-free list. -/
abbrev FS := List String

/-- os.path.exists. -/
def fsExists (fs : FS) (p : String) : Bool := fs.contains p

/-- os.remove (removing a path from the set). -/
def fsRemove (fs : FS) (p : String) : FS := fs.filter (fun q => q != p)

/-- Creation of a file at a path (overwriting any previous one). -/
def fsAdd (fs : FS) (p : String) : FS := p :: fsRemove fs p

/-- The guarded removal pattern used throughout the source:
if os.path.exists(p): os.remove(p). -/
def remove_if_exists (fs : FS) (p : String) : FS :=
  if fsExists fs p then fsRemove fs p else fs

/-- os.path.basename (posixpath): everything after the last separator. -/
def pyBasename (p : String) : String :=
  String.mk ((p.data.reverse.takeWhile (fun c => c != '/')).reverse)

/-- os.path.dirname (posixpath): everything before the last separator, with
trailing separators stripped unless the head is empty or all separators. -/
def pyDirname (p : String) : String :=
  let tail := p.data.reverse.takeWhile (fun c => c != '/')
  let head := (p.data.reverse.drop tail.length).reverse
  if head.isEmpty || head.all (fun c => c == '/') then String.mk head
  else String.mk ((head.reverse.dropWhile (fun c => c == '/')).reverse)

/-- os.path.join of two components (posixpath): the second wins when absolute,
otherwise a separator is inserted unless already present. -/
def pyJoin (a b : String) : String :=
  if b.data.head? == some '/' then b
  else if a == "" || a.data.getLast? == some '/' then strCat a b
  else strCat a (strCat "/" b)

/-- Extension split of a bare file name: split at the last dot, unless every
character before that dot is itself a dot (CPython genericpath rule). -/
def splitextBase (b : List Char) : List Char × List Char :=
  let r := b.reverse
  let after := r.takeWhile (fun c => c != '.')
  if after.length = b.length then (b, [])
  else
    let pre := (r.drop (after.length + 1)).reverse
    if pre.any (fun c => c != '.') then (pre, '.' :: after.reverse)
    else (b, [])

/-- os.path.splitext: the extension is computed on the basename and is a
suffix of the whole path. -/
def pySplitext (p : String) : String × String :=
  let e := (splitextBase (pyBasename p).data).2
  (String.mk (p.data.take (p.data.length - e.length)), String.mk e)

/-- Exceptions distinguished by DownloadTask.run (source lines 265-272): the
yt-dlp DownloadError and everything else; msg is str(e). -/
inductive PyExc where
  | downloadError (msg : String)
  | other (msg : String)
deriving DecidableEq

deriving instance DecidableEq for Except

/-- Download metadata returned by the engine: info_dict title and the path
from ydl.prepare_filename (source lines 197-201). -/
structure Info where
  title : String
  original_path : String
deriving DecidableEq

/-- The five constructor parameters of DownloadTask (source lines 160-166). -/
structure Task where
  url : String
  carpeta : String
  separar_audio : Bool
  formato_video : String
  formato_audio : String

/-- Responses of the external collaborators during one run: the initial
filesystem, the progress records the engine feeds to the hook, the download
outcome, the exit outcome of each possible ffmpeg invocation, the moviepy
clip-open and write outcomes, and whether the write materialized the wav. -/
structure World where
  fs0 : FS
  hooks : List ProgressRecord
  download : Except PyExc Info
  avi : Except PyExc Unit
  mp3 : Except PyExc Unit
  clipOpen : Except PyExc Unit
  wavWrite : Except PyExc Unit
  wavCreated : Bool

/-- The output path the converters actually write to: directory of the
requested output joined with its sanitized basename (source lines 83-90
and 106-109). -/
def resolved_output (output_path : String) : String :=
  pyJoin (pyDirname output_path) (sanitize_filename (pyBasename output_path))

/-- subprocess.run of an ffmpeg command with check=True: on exit 0 the output
file exists, on non-zero exit CalledProcessError is raised and nothing is
produced. -/
def ffmpegRun (fs : FS) (out : String) (res : Except PyExc Unit) :
    FS × Except PyExc Unit :=
  match res with
  | .ok _ => (fsAdd fs out, .ok ())
  | .error e => (fs, .error e)

/-- convertir_a_avi_divx (source lines 78-99): resolve the output path,
delete any pre-existing file there, then run ffmpeg (video codec arguments
do not affect the filesystem model). -/
def convertir_a_avi_divx (fs : FS) (video_path output_path : String)
    (res : Except PyExc Unit) : FS × Except PyExc Unit :=
  ffmpegRun (remove_if_exists fs (resolved_output output_path))
    (resolved_output output_path) res

/-- convertir_audio_a_mp3 (source lines 102-117): same filesystem behaviour
as the video converter, with audio ffmpeg arguments. -/
def convertir_audio_a_mp3 (fs : FS) (audio_path output_path : String)
    (res : Except PyExc Unit) : FS × Except PyExc Unit :=
  ffmpegRun (remove_if_exists fs (resolved_output output_path))
    (resolved_output output_path) res

/-- The wav path built by extraer_audio (source lines 127-133): same
directory, sanitized base name, wav extension. -/
def wav_path_of (video_path : String) : String :=
  pyJoin (pyDirname video_path)
    (strCat (sanitize_filename (pySplitext (pyBasename video_path)).1) ".wav")

/-- extraer_audio (source lines 120-142): open the clip, write the wav, then
return the wav path when the file exists, else raise the RuntimeError; the
existence test, not any exit code, decides success. -/
def extraer_audio (fs : FS) (video_path : String)
    (clipOpen wavWrite : Except PyExc Unit) (wavCreated : Bool) :
    FS × Except PyExc String :=
  match clipOpen with
  | .error e => (fs, .error e)
  | .ok _ =>
    match wavWrite with
    | .error e => (fs, .error e)
    | .ok _ =>
      let audio_path := wav_path_of video_path
      let fs1 := if wavCreated then fsAdd fs audio_path else fs
      if fsExists fs1 audio_path then (fs1, .ok audio_path)
      else (fs1, .error (.other "No se pudo crear el archivo de audio."))

/-- What one run produced: the events emitted through the signals object,
the final filesystem, and a trace of the collaborator invocations (arguments
of each converter call, of each extraction, the video_output_path variable
after the video stage, and the audio_wav_path variable when set). -/
structure RunResult where
  events : List Event
  fs : FS
  aviCalls : List (String × String)
  mp3Calls : List (String × String)
  extractCalls : List String
  videoOut : Option String
  wavPath : Option String

/-- The two except clauses of DownloadTask.run (source lines 265-272). -/
def emitExc : PyExc → Event
  | .downloadError m => .error (strCat "Error al descargar el video: " m)
  | .other m => .error (strCat "Error inesperado: " m)

/-- Success message of the split-audio branches (source lines 247-256). -/
def mensaje_exito_audio (t : Task) (safe_title fmtAudio : String) : String :=
  strCat "Se ha creado el archivo \""
    (strCat safe_title
      (strCat "\" en formatos "
        (strCat t.formato_video (strCat " y " fmtAudio))))

/-- Success message of the video-only branch (source lines 258-261). -/
def mensaje_no_audio (t : Task) (safe_title : String) : String :=
  strCat "Video descargado: \""
    (strCat safe_title
      (strCat "\" en formato "
        (strCat t.formato_video (strCat "\nCarpeta: " t.carpeta))))

/-- The audio half of DownloadTask.run (source lines 232-256), entered when
separar_audio holds: extract the wav, then either convert it to mp3 and
delete it (formato_audio equal to MP3) or keep it as the final artifact. -/
def audioStage (t : Task) (w : World) (safe_title vop : String) (fs : FS)
    (aviC : List (String × String)) : RunResult :=
  match extraer_audio fs vop w.clipOpen w.wavWrite w.wavCreated with
  | (fs5, .error e) =>
      ⟨[emitExc e], fs5, aviC, [], [vop], some vop, none⟩
  | (fs5, .ok audio_wav_path) =>
      if t.formato_audio = "MP3" then
        let audio_output_path := pyJoin t.carpeta (strCat safe_title ".mp3")
        match convertir_audio_a_mp3 fs5 audio_wav_path audio_output_path w.mp3 with
        | (fs6, .error e) =>
            ⟨[emitExc e], fs6, aviC, [(audio_wav_path, audio_output_path)],
              [vop], some vop, some audio_wav_path⟩
        | (fs6, .ok _) =>
            let fs7 := remove_if_exists fs6 audio_wav_path
            ⟨[Event.finished (mensaje_exito_audio t safe_title t.formato_audio)],
              fs7, aviC, [(audio_wav_path, audio_output_path)],
              [vop], some vop, some audio_wav_path⟩
      else
        ⟨[Event.finished (mensaje_exito_audio t safe_title "WAV")],
          fs5, aviC, [], [vop], some vop, some audio_wav_path⟩

/-- The body of DownloadTask.run after the progress events (source lines
181-272): download, sanitize and rename, optionally convert the video when
the lowered format starts with avi (deleting the pre-conversion file when it
still exists), optionally run the audio stage, and emit one terminal event;
the two except clauses turn any raised exception into one error event. -/
def runBody (t : Task) (w : World) : RunResult :=
  match w.download with
  | .error e => ⟨[emitExc e], w.fs0, [], [], [], none, none⟩
  | .ok info =>
    let fs1 := fsAdd w.fs0 info.original_path
    let safe_title := sanitize_filename info.title
    let ext_original := (pySplitext info.original_path).2
    let sanitized_video_path := pyJoin t.carpeta (strCat safe_title ext_original)
    let fs2 := if sanitized_video_path ≠ info.original_path
      then fsAdd (fsRemove fs1 info.original_path) sanitized_video_path
      else fs1
    let video_output_path :=
      pyJoin t.carpeta (strCat safe_title (strCat "." (pyLower t.formato_video)))
    if pyStartswith "avi" (pyLower t.formato_video) then
      match convertir_a_avi_divx fs2 sanitized_video_path video_output_path w.avi with
      | (fs3, .error e) =>
          ⟨[emitExc e], fs3, [(sanitized_video_path, video_output_path)],
            [], [], none, none⟩
      | (fs3, .ok _) =>
          let fs4 := remove_if_exists fs3 sanitized_video_path
          if t.separar_audio then
            audioStage t w safe_title video_output_path fs4
              [(sanitized_video_path, video_output_path)]
          else
            ⟨[Event.finished (mensaje_no_audio t safe_title)], fs4,
              [(sanitized_video_path, video_output_path)], [], [],
              some video_output_path, none⟩
    else
      if t.separar_audio then
        audioStage t w safe_title sanitized_video_path fs2 []
      else
        ⟨[Event.finished (mensaje_no_audio t safe_title)], fs2,
          [], [], [], some sanitized_video_path, none⟩

/-- The progress events the hook emits during the download (source line 188
registers actualizar_progreso on every record the engine delivers). -/
def progressEvents (w : World) : List Event :=
  w.hooks.foldr (fun d acc => actualizar_progreso d ++ acc) []

/-- DownloadTask.run: the progress events fired during the download followed
by the single terminal event of the body. -/
def DownloadTask_run (t : Task) (w : World) : RunResult :=
  let b := runBody t w
  { b with events := progressEvents w ++ b.events }

/-- Concrete job requesting the AVI conversion with no audio split. -/
def tVideoOnlyAvi : Task := ⟨"u", "/d", false, "AVI", "MP3"⟩

/-- Concrete job requesting audio split to MP3, video kept as MP4. -/
def tAudioMp3 : Task := ⟨"u", "/d", true, "MP4", "MP3"⟩

/-- Concrete job requesting audio split kept as WAV. -/
def tAudioWav : Task := ⟨"u", "/d", true, "MP4", "WAV"⟩

/-- Concrete world: the engine downloads an avi file whose sanitized path
coincides with the conversion output path; every collaborator succeeds. -/
def wAviSelf : World :=
  ⟨["/d/v.avi"], [], .ok ⟨"v", "/d/v.avi"⟩, .ok (), .ok (), .ok (), .ok (), true⟩

/-- Concrete world: the engine downloads an mp4 file; every collaborator
succeeds. -/
def wMp4 : World :=
  ⟨[], [], .ok ⟨"v", "/d/v.mp4"⟩, .ok (), .ok (), .ok (), .ok (), true⟩

/-- Concrete world: the download engine fails with a DownloadError. -/
def wFail : World :=
  ⟨[], [], .error (.downloadError "HTTP 403"), .ok (), .ok (), .ok (), .ok (), true⟩

/-- The sanitized_video_path variable of the run (source line 207): the
sanitized title under the original download extension. -/
def sanitized_path (t : Task) (info : Info) : String :=
  pyJoin t.carpeta
    (strCat (sanitize_filename info.title) (pySplitext info.original_path).2)

/-- The video_output_path variable before the branch (source lines 215-218):
the sanitized title under the lowered requested format as extension. -/
def avi_target_path (t : Task) (info : Info) : String :=
  pyJoin t.carpeta
    (strCat (sanitize_filename info.title) (strCat "." (pyLower t.formato_video)))

/-- The video_output_path variable after the video stage (source lines
214-229): the conversion target in the avi branch, else reassigned to the
sanitized download path. -/
def video_out_path (t : Task) (info : Info) : String :=
  if pyStartswith "avi" (pyLower t.formato_video) then avi_target_path t info
  else sanitized_path t info

/-- Terminal events are finished and error; progress is not. -/
def isTerminal : Event → Bool
  | .progress _ => false
  | .finished _ => true
  | .error _ => true

/-- Success (finished) events. -/
def isFinished : Event → Bool
  | .finished _ => true
  | _ => false

/-! Helper lemmas about the string and filesystem primitives. -/

theorem dropWhile_length_le (p : Char → Bool) (l : List Char) :
    (l.dropWhile p).length ≤ l.length := by
  induction l with
  | nil => simp
  | cons a t ih =>
    rw [List.dropWhile_cons]
    by_cases h : p a = true
    · simp only [h, if_true, List.length_cons]; omega
    · simp [h]

theorem dropWhile_idem (p : Char → Bool) (l : List Char) :
    (l.dropWhile p).dropWhile p = l.dropWhile p := by
  induction l with
  | nil => rfl
  | cons a t ih =>
    rw [List.dropWhile_cons]
    by_cases h : p a = true
    · simp only [h, if_true]; exact ih
    · simp [List.dropWhile_cons, h]

theorem dropWhile_rev_append (p : Char → Bool) (a : Char) (ha : p a = false)
    (xs : List Char) :
    (((xs ++ [a]).dropWhile p).reverse).dropWhile p
      = ((xs ++ [a]).dropWhile p).reverse := by
  induction xs with
  | nil => simp [List.dropWhile_cons, ha]
  | cons b t ih =>
    by_cases hb : p b = true
    · simpa [List.dropWhile_cons, hb] using ih
    · simp [List.dropWhile_cons, hb, ha]

theorem stripBy_dropWhile (p : Char → Bool) (l : List Char) :
    (stripBy p l).dropWhile p = stripBy p l := by
  unfold stripBy
  rcases hA : l.dropWhile p with _ | ⟨a, t⟩
  · simp
  · have ha : p a = false := by
      by_contra hc
      have hc2 : p a = true := by simpa using hc
      have h2 := dropWhile_idem p l
      rw [hA, List.dropWhile_cons, if_pos hc2] at h2
      have h3 := dropWhile_length_le p t
      rw [h2] at h3
      simp at h3
    rw [List.reverse_cons]
    exact dropWhile_rev_append p a ha t.reverse

theorem stripBy_rev_dropWhile (p : Char → Bool) (l : List Char) :
    (stripBy p l).reverse.dropWhile p = (stripBy p l).reverse := by
  unfold stripBy
  rw [List.reverse_reverse]
  exact dropWhile_idem p (l.dropWhile p).reverse

theorem stripBy_idem (p : Char → Bool) (l : List Char) :
    stripBy p (stripBy p l) = stripBy p l := by
  show (((stripBy p l).dropWhile p).reverse.dropWhile p).reverse = stripBy p l
  rw [stripBy_dropWhile, stripBy_rev_dropWhile, List.reverse_reverse]

theorem mem_dropWhile (p : Char → Bool) (l : List Char) (c : Char)
    (h : c ∈ l.dropWhile p) : c ∈ l := by
  induction l with
  | nil => simpa using h
  | cons a t ih =>
    rw [List.dropWhile_cons] at h
    by_cases hp : p a = true
    · rw [if_pos hp] at h
      exact List.mem_cons_of_mem a (ih h)
    · rw [if_neg hp] at h
      exact h

theorem mem_stripBy (p : Char → Bool) (l : List Char) (c : Char)
    (h : c ∈ stripBy p l) : c ∈ l := by
  unfold stripBy at h
  rw [List.mem_reverse] at h
  have h2 := mem_dropWhile _ _ _ h
  rw [List.mem_reverse] at h2
  exact mem_dropWhile _ _ _ h2

theorem dropWhile_eq_nil_of_all (p : Char → Bool) (l : List Char)
    (h : ∀ c ∈ l, p c = true) : l.dropWhile p = [] := by
  induction l with
  | nil => rfl
  | cons a t ih =>
    rw [List.dropWhile_cons, if_pos (h a (List.mem_cons_self a t))]
    exact ih (fun c hc => h c (List.mem_cons_of_mem a hc))

theorem stripBy_eq_nil_of_all (p : Char → Bool) (l : List Char)
    (h : ∀ c ∈ l, p c = true) : stripBy p l = [] := by
  unfold stripBy
  rw [dropWhile_eq_nil_of_all p l h]
  rfl

theorem map_eq_self_of {α : Type} (f : α → α) (l : List α)
    (h : ∀ c ∈ l, f c = c) : l.map f = l := by
  induction l with
  | nil => rfl
  | cons a t ih =>
    rw [List.map_cons, h a (List.mem_cons_self a t),
      ih (fun c hc => h c (List.mem_cons_of_mem a hc))]

theorem badChar_replBad (c : Char) : badChar (replBad c) = false := by
  unfold replBad
  by_cases h : badChar c = true
  · rw [if_pos h]; rfl
  · rw [if_neg h]; simpa using h

theorem replBad_eq_self (c : Char) (h : badChar c = false) : replBad c = c := by
  simp [replBad, h]

theorem sanitize_data (s : String) :
    (sanitize_filename s).data = stripBy isPySpace (s.data.map replBad) := rfl

theorem sanitize_no_bad (s : String) (c : Char)
    (hc : c ∈ (sanitize_filename s).data) : badChar c = false := by
  rw [sanitize_data] at hc
  have h2 := mem_stripBy _ _ _ hc
  rw [List.mem_map] at h2
  rcases h2 with ⟨x, _, rfl⟩
  exact badChar_replBad x

theorem isPySpace_not_bad (c : Char) (h : isPySpace c = true) :
    badChar c = false := by
  unfold isPySpace at h
  simp only [Bool.or_eq_true, beq_iff_eq] at h
  rcases h with ((((rfl | rfl) | rfl) | rfl) | rfl) | rfl <;> rfl

theorem fsExists_fsRemove (fs : FS) (p : String) :
    fsExists (fsRemove fs p) p = false := by
  simp [fsExists, fsRemove, List.mem_filter]

theorem fsExists_remove_if_exists (fs : FS) (p : String) :
    fsExists (remove_if_exists fs p) p = false := by
  unfold remove_if_exists
  by_cases h : fsExists fs p = true
  · rw [if_pos h]
    exact fsExists_fsRemove fs p
  · rw [if_neg h]
    simpa using h

theorem fsExists_fsAdd (fs : FS) (p : String) :
    fsExists (fsAdd fs p) p = true := by
  simp [fsExists, fsAdd]

theorem isPrefixList_append (p a b : List Char) (h : isPrefixList p a = true) :
    isPrefixList p (a ++ b) = true := by
  induction p generalizing a with
  | nil => rfl
  | cons c cs ih =>
    cases a with
    | nil => simp [isPrefixList] at h
    | cons d ds =>
      rw [List.cons_append]
      unfold isPrefixList at h ⊢
      rw [Bool.and_eq_true] at h ⊢
      exact ⟨h.1, ih ds h.2⟩

theorem hasSubstr_of_prefix (pat l : List Char) (h : isPrefixList pat l = true) :
    hasSubstr pat l = true := by
  cases l with
  | nil => simpa [hasSubstr] using h
  | cons c t => simp [hasSubstr, h]

theorem isTerminal_emitExc (e : PyExc) : isTerminal (emitExc e) = true := by
  cases e <;> rfl

theorem isFinished_emitExc (e : PyExc) : isFinished (emitExc e) = false := by
  cases e <;> rfl

theorem filter_progressEvents (f : Event → Bool)
    (hf : ∀ q, f (Event.progress q) = false) (w : World) :
    (progressEvents w).filter f = [] := by
  unfold progressEvents
  induction w.hooks with
  | nil => rfl
  | cons d t ih =>
    rw [List.foldr_cons, List.filter_append, ih, List.append_nil]
    unfold actualizar_progreso
    by_cases h : d.status = "downloading"
    · rw [if_pos h]
      simp [List.filter_cons, hf]
    · rw [if_neg h]
      rfl

theorem run_events (t : Task) (w : World) :
    (DownloadTask_run t w).events = progressEvents w ++ (runBody t w).events := rfl

theorem run_fs (t : Task) (w : World) :
    (DownloadTask_run t w).fs = (runBody t w).fs := rfl

theorem run_aviCalls (t : Task) (w : World) :
    (DownloadTask_run t w).aviCalls = (runBody t w).aviCalls := rfl

theorem run_mp3Calls (t : Task) (w : World) :
    (DownloadTask_run t w).mp3Calls = (runBody t w).mp3Calls := rfl

theorem run_videoOut (t : Task) (w : World) :
    (DownloadTask_run t w).videoOut = (runBody t w).videoOut := rfl

theorem audioStage_single (t : Task) (w : World) (safe vop : String) (fs : FS)
    (aviC : List (String × String)) :
    ∃ e, (audioStage t w safe vop fs aviC).events = [e] ∧ isTerminal e = true := by
  unfold audioStage
  rcases hx : extraer_audio fs vop w.clipOpen w.wavWrite w.wavCreated with ⟨fs5, r⟩
  rcases r with e | pth
  · exact ⟨emitExc e, rfl, isTerminal_emitExc e⟩
  · dsimp only
    by_cases hf : t.formato_audio = "MP3"
    · rw [if_pos hf]
      rcases hc : convertir_audio_a_mp3 fs5 pth (pyJoin t.carpeta (strCat safe ".mp3"))
          w.mp3 with ⟨fs6, r2⟩
      rcases r2 with e2 | u
      · exact ⟨emitExc e2, rfl, isTerminal_emitExc e2⟩
      · exact ⟨Event.finished (mensaje_exito_audio t safe t.formato_audio), rfl, rfl⟩
    · rw [if_neg hf]
      exact ⟨Event.finished (mensaje_exito_audio t safe "WAV"), rfl, rfl⟩

theorem runBody_single (t : Task) (w : World) :
    ∃ e, (runBody t w).events = [e] ∧ isTerminal e = true := by
  unfold runBody
  rcases hd : w.download with e | info
  · exact ⟨emitExc e, rfl, isTerminal_emitExc e⟩
  · dsimp only
    by_cases hb : pyStartswith "avi" (pyLower t.formato_video) = true
    · rw [if_pos hb]
      rcases hc : convertir_a_avi_divx _ _ _ w.avi with ⟨fs3, r⟩
      rcases r with e2 | u
      · exact ⟨emitExc e2, rfl, isTerminal_emitExc e2⟩
      · dsimp only
        by_cases hs : t.separar_audio = true
        · rw [if_pos hs]
          exact audioStage_single t w _ _ _ _
        · rw [if_neg hs]
          exact ⟨Event.finished (mensaje_no_audio t (sanitize_filename info.title)),
            rfl, rfl⟩
    · rw [if_neg hb]
      by_cases hs : t.separar_audio = true
      · rw [if_pos hs]
        exact audioStage_single t w _ _ _ _
      · rw [if_neg hs]
        exact ⟨Event.finished (mensaje_no_audio t (sanitize_filename info.title)),
          rfl, rfl⟩

/-- C1: every pipeline run emits exactly one terminal event (one finished or
one error, never both, never more than one), for every behaviour of the
collaborators — in particular no exception escapes the run; and when the
download engine fails with a DownloadError, the run emits exactly one error
event whose message contains the words Error al descargar, and zero
finished events. -/
theorem c1_exactly_one_terminal (t : Task) (w : World) :
    ((DownloadTask_run t w).events.filter isTerminal).length = 1 ∧
    (∀ m, w.download = Except.error (PyExc.downloadError m) →
      (DownloadTask_run t w).events.filter isTerminal
          = [Event.error (strCat "Error al descargar el video: " m)] ∧
        hasSubstr "Error al descargar".data
          (strCat "Error al descargar el video: " m).data = true ∧
        (DownloadTask_run t w).events.filter isFinished = []) := by
  have hpe := filter_progressEvents isTerminal (fun q => rfl) w
  have hpf := filter_progressEvents isFinished (fun q => rfl) w
  constructor
  · obtain ⟨e, he, ht⟩ := runBody_single t w
    rw [run_events, List.filter_append, hpe, he]
    simp [List.filter_cons, ht]
  · intro m hm
    have hb : (runBody t w).events = [emitExc (PyExc.downloadError m)] := by
      unfold runBody
      rw [hm]
    refine ⟨?_, ?_, ?_⟩
    · rw [run_events, List.filter_append, hpe, hb]
      rfl
    · exact hasSubstr_of_prefix _ _
        (isPrefixList_append _ _ m.data (by decide))
    · rw [run_events, List.filter_append, hpf, hb]
      rfl

/-- Witness for C1 at a concrete failing download. -/
theorem c1_witness :
    ((DownloadTask_run tVideoOnlyAvi wFail).events.filter isTerminal).length = 1 ∧
    (DownloadTask_run tVideoOnlyAvi wFail).events.filter isTerminal
        = [Event.error (strCat "Error al descargar el video: " "HTTP 403")] ∧
    (DownloadTask_run tVideoOnlyAvi wFail).events.filter isFinished = [] := by
  have h := c1_exactly_one_terminal tVideoOnlyAvi wFail
  exact ⟨h.1, (h.2 "HTTP 403" rfl).1, (h.2 "HTTP 403" rfl).2.2⟩

/-- C2: the progress callback emits nothing on records whose status is not
downloading; on downloading records it emits exactly one event carrying the
total normalization of the percent string; the string 45.3 per cent followed
by an ANSI reset normalizes to 45.3 and the unparsable string of two dashes
normalizes to 0 — normalization is a total function, so it never raises. -/
theorem c2_progress_normalization :
    (∀ d : ProgressRecord, d.status ≠ "downloading" → actualizar_progreso d = []) ∧
    (∀ d : ProgressRecord, d.status = "downloading" →
      actualizar_progreso d
        = [Event.progress (normalizar_porcentaje (d.percent_str.getD "0%"))]) ∧
    normalizar_porcentaje "45.3%\x1b[0m" = 45.3 ∧
    normalizar_porcentaje "--" = 0 := by
  refine ⟨fun d h => ?_, fun d h => ?_, ?_, ?_⟩
  · simp [actualizar_progreso, h]
  · simp [actualizar_progreso, h]
  · have h : normalizar_porcentaje "45.3%\x1b[0m" = mkRat 453 10 := by decide
    rw [h, Rat.mkRat_eq_div]
    norm_num
  · decide

/-- Witness for C2 at concrete records. -/
theorem c2_witness :
    actualizar_progreso ⟨"finished", some "10%"⟩ = [] ∧
    actualizar_progreso ⟨"downloading", some "45.3%"⟩
      = [Event.progress (normalizar_porcentaje "45.3%")] := by
  refine ⟨c2_progress_normalization.1 ⟨"finished", some "10%"⟩ (by decide), ?_⟩
  exact c2_progress_normalization.2.1 ⟨"downloading", some "45.3%"⟩ rfl

/-- C3 counterexample: the code applies no clamping, so a downloading record
whose percent string reads 150 per cent makes the callback emit the value
150, which lies outside the interval from 0 to 100 — refuting the claim for
arbitrary percent strings. -/
theorem c3_cex_progress_out_of_range :
    actualizar_progreso ⟨"downloading", some "150%"⟩ = [Event.progress 150] ∧
    ¬ ((0 : ℚ) ≤ 150 ∧ (150 : ℚ) ≤ 100) := by
  constructor
  · decide
  · norm_num

/-- C3 amended: every emitted progress value equals the total normalization
of the percent string of the record, and it lies in the interval from 0 to 100
whenever every successful parse of the cleaned percent string lies in that
interval (in particular a malformed string normalizes to 0, which is in
range); the code does not clamp values parsed outside the interval. -/
theorem c3_amended_progress_range (d : ProgressRecord) (q : ℚ)
    (hq : Event.progress q ∈ actualizar_progreso d)
    (h : ∀ v, pyFloat? (cleanPercent (d.percent_str.getD "0%")) = some v →
      0 ≤ v ∧ v ≤ 100) :
    q = normalizar_porcentaje (d.percent_str.getD "0%") ∧ 0 ≤ q ∧ q ≤ 100 := by
  unfold actualizar_progreso at hq
  by_cases hs : d.status = "downloading"
  · rw [if_pos hs] at hq
    simp only [List.mem_singleton, Event.progress.injEq] at hq
    subst hq
    refine ⟨rfl, ?_⟩
    unfold normalizar_porcentaje
    rcases hp : pyFloat? (cleanPercent (d.percent_str.getD "0%")) with _ | v
    · simp only [Option.getD_none]
      norm_num
    · simp only [Option.getD_some]
      exact h v hp
  · rw [if_neg hs] at hq
    simp at hq

/-- Witness for the amended C3 at a concrete in-range record. -/
theorem c3_amended_witness :
    (45.3 : ℚ) = normalizar_porcentaje "45.3%" ∧ (0 : ℚ) ≤ 45.3 ∧ (45.3 : ℚ) ≤ 100 := by
  have h45 : pyFloat? (cleanPercent "45.3%") = some (mkRat 453 10) := by decide
  have heq : (mkRat 453 10 : ℚ) = 45.3 := by
    rw [Rat.mkRat_eq_div]
    norm_num
  have hnq : normalizar_porcentaje "45.3%" = 45.3 := by
    unfold normalizar_porcentaje
    rw [h45, Option.getD_some, heq]
  refine c3_amended_progress_range ⟨"downloading", some "45.3%"⟩ 45.3 ?_ ?_
  · simp [actualizar_progreso, hnq]
  · intro v hv
    dsimp only [Option.getD] at hv
    rw [h45] at hv
    injection hv with hv2
    rw [← hv2, heq]
    norm_num

set_option maxHeartbeats 2000000 in
/-- C4 counterexample: the post-conversion deletion checks only existence,
not distinctness from the output path; on a downloaded avi file (so the
sanitized path coincides with the conversion output path) a successful AVI
run finishes with the just-produced final artifact deleted from disk. -/
theorem c4_cex_final_artifact_deleted :
    pyJoin tVideoOnlyAvi.carpeta
        (strCat (sanitize_filename "v") (pySplitext "/d/v.avi").2)
      = pyJoin tVideoOnlyAvi.carpeta
          (strCat (sanitize_filename "v")
            (strCat "." (pyLower tVideoOnlyAvi.formato_video))) ∧
    (DownloadTask_run tVideoOnlyAvi wAviSelf).events.filter isFinished ≠ [] ∧
    fsExists (DownloadTask_run tVideoOnlyAvi wAviSelf).fs "/d/v.avi" = false := by
  refine ⟨by decide, by decide, by decide⟩

set_option maxHeartbeats 2000000 in
/-- C4 amended: after a successful AVI transcode the code deletes
sanitizedVideoPath whenever it exists, with no comparison against the output
path: the pre-conversion path never survives, even when it coincides with
the final path (in which case the final artifact itself is removed). -/
theorem c4_amended_delete_unconditional (t : Task) (w : World) (info : Info)
    (hd : w.download = Except.ok info)
    (hfmt : pyStartswith "avi" (pyLower t.formato_video) = true)
    (hok : w.avi = Except.ok ())
    (hsep : t.separar_audio = false) :
    fsExists (DownloadTask_run t w).fs
      (pyJoin t.carpeta (strCat (sanitize_filename info.title)
        (pySplitext info.original_path).2)) = false := by
  rw [run_fs]
  unfold runBody
  rw [hd]
  dsimp only
  rw [if_pos hfmt]
  unfold convertir_a_avi_divx ffmpegRun
  rw [hok]
  dsimp only
  rw [if_neg (by rw [hsep]; exact Bool.false_ne_true)]
  exact fsExists_remove_if_exists _ _

/-- Witness for the amended C4 at a downloaded mp4 converted to avi. -/
theorem c4_amended_witness :
    fsExists (DownloadTask_run tVideoOnlyAvi wMp4).fs
      (pyJoin tVideoOnlyAvi.carpeta (strCat (sanitize_filename "v")
        (pySplitext "/d/v.mp4").2)) = false :=
  c4_amended_delete_unconditional tVideoOnlyAvi wMp4 ⟨"v", "/d/v.mp4"⟩
    rfl (by decide) rfl rfl

/-- C5: sanitize_filename is exactly character replacement of the nine
conflictive characters by an underscore followed by whitespace trimming; it
is total by construction, its output never contains any of the nine
characters, and an all-whitespace input is merely trimmed, to empty. -/
theorem c5_sanitize_contract (s : String) :
    sanitize_filename s = pyStrip (String.mk (s.data.map replBad)) ∧
    (∀ c ∈ (sanitize_filename s).data, badChar c = false) ∧
    ((∀ c ∈ s.data, isPySpace c = true) → sanitize_filename s = "") := by
  refine ⟨rfl, fun c hc => sanitize_no_bad s c hc, fun h => ?_⟩
  have hmap : s.data.map replBad = s.data :=
    map_eq_self_of _ _
      (fun c hc => replBad_eq_self c (isPySpace_not_bad c (h c hc)))
  show String.mk (stripBy isPySpace (s.data.map replBad)) = ""
  rw [hmap, stripBy_eq_nil_of_all isPySpace s.data h]

/-- Witness for C5 at a whitespace-only input. -/
theorem c5_witness : sanitize_filename "  " = "" :=
  (c5_sanitize_contract "  ").2.2 (by decide)

/-- C6: sanitize_filename is idempotent. -/
theorem c6_sanitize_idempotent (s : String) :
    sanitize_filename (sanitize_filename s) = sanitize_filename s := by
  have hmap : (sanitize_filename s).data.map replBad = (sanitize_filename s).data :=
    map_eq_self_of _ _ (fun c hc => replBad_eq_self c (sanitize_no_bad s c hc))
  show String.mk (stripBy isPySpace ((sanitize_filename s).data.map replBad))
      = sanitize_filename s
  rw [hmap, sanitize_data, stripBy_idem]
  rfl

/-- C7: both transcoders factor through a removal of any pre-existing file at
the resolved output path followed by the process invocation; the state the
process is invoked on never contains the output path, and on success the
output path exists (overwrite semantics, no file-exists failure). -/
theorem c7_converters_overwrite (fs : FS) (vi vo ai ao : String)
    (res res2 : Except PyExc Unit) :
    convertir_a_avi_divx fs vi vo res
        = ffmpegRun (remove_if_exists fs (resolved_output vo))
            (resolved_output vo) res ∧
    convertir_audio_a_mp3 fs ai ao res2
        = ffmpegRun (remove_if_exists fs (resolved_output ao))
            (resolved_output ao) res2 ∧
    fsExists (remove_if_exists fs (resolved_output vo)) (resolved_output vo)
        = false ∧
    fsExists (remove_if_exists fs (resolved_output ao)) (resolved_output ao)
        = false ∧
    (res = Except.ok () →
      fsExists (convertir_a_avi_divx fs vi vo res).1 (resolved_output vo) = true) ∧
    (res2 = Except.ok () →
      fsExists (convertir_audio_a_mp3 fs ai ao res2).1 (resolved_output ao) = true) := by
  refine ⟨rfl, rfl, fsExists_remove_if_exists _ _, fsExists_remove_if_exists _ _,
    fun h => ?_, fun h => ?_⟩
  · rw [h]
    exact fsExists_fsAdd _ _
  · rw [h]
    exact fsExists_fsAdd _ _

/-- Witness for C7 at a concrete pre-existing output file. -/
theorem c7_witness :
    fsExists (remove_if_exists ["/d/out.avi"] (resolved_output "/d/out.avi"))
        (resolved_output "/d/out.avi") = false ∧
    fsExists (convertir_a_avi_divx ["/d/out.avi"] "/d/in.mp4" "/d/out.avi"
        (Except.ok ())).1 (resolved_output "/d/out.avi") = true := by
  have h := c7_converters_overwrite ["/d/out.avi"] "/d/in.mp4" "/d/out.avi"
    "/d/in.wav" "/d/out.mp3" (Except.ok ()) (Except.ok ())
  exact ⟨h.2.2.1, h.2.2.2.2.1 rfl⟩

/-- C8 counterexample: extraer_audio sanitizes the base name before building
the wav path, so for a video path whose base name contains a conflictive
character the wav is written and returned under a different base name than
that of the input. -/
theorem c8_cex_base_name_differs :
    (extraer_audio [] "/d/a?b.mp4" (Except.ok ()) (Except.ok ()) true).2
        = Except.ok "/d/a_b.wav" ∧
    (extraer_audio [] "/d/a?b.mp4" (Except.ok ()) (Except.ok ()) true).2
        ≠ Except.ok (pyJoin (pyDirname "/d/a?b.mp4")
            (strCat (pySplitext (pyBasename "/d/a?b.mp4")).1 ".wav")) ∧
    fsExists (extraer_audio [] "/d/a?b.mp4" (Except.ok ()) (Except.ok ()) true).1
        "/d/a?b.wav" = false := by
  refine ⟨by decide, by decide, by decide⟩

/-- C8 amended: when the decode and the write complete, extraer_audio
returns the path in the directory of the video formed from the sanitized base
name with the wav extension if and only if that file exists afterwards, and
raises the RuntimeError if and only if it does not; when the write
materializes the file the call always returns that path. -/
theorem c8_amended_extraction (fs : FS) (vp : String) (wc : Bool) :
    ((extraer_audio fs vp (Except.ok ()) (Except.ok ()) wc).2
        = Except.ok (wav_path_of vp) ↔
      fsExists (extraer_audio fs vp (Except.ok ()) (Except.ok ()) wc).1
          (wav_path_of vp) = true) ∧
    ((extraer_audio fs vp (Except.ok ()) (Except.ok ()) wc).2
        = Except.error (PyExc.other "No se pudo crear el archivo de audio.") ↔
      fsExists (extraer_audio fs vp (Except.ok ()) (Except.ok ()) wc).1
          (wav_path_of vp) = false) ∧
    (extraer_audio fs vp (Except.ok ()) (Except.ok ()) true).2
        = Except.ok (wav_path_of vp) := by
  refine ⟨?_, ?_, ?_⟩
  · unfold extraer_audio
    dsimp only
    by_cases h : fsExists (if wc = true then fsAdd fs (wav_path_of vp) else fs)
        (wav_path_of vp) = true
    · rw [if_pos h]
      simp [h]
    · rw [if_neg h]
      simp [h]
  · unfold extraer_audio
    dsimp only
    by_cases h : fsExists (if wc = true then fsAdd fs (wav_path_of vp) else fs)
        (wav_path_of vp) = true
    · rw [if_pos h]
      simp [h]
    · rw [if_neg h]
      simp only [Bool.not_eq_true] at h
      simp [h]
  · unfold extraer_audio
    dsimp only
    rw [if_pos]
    rw [if_pos rfl]
    exact fsExists_fsAdd fs (wav_path_of vp)

theorem audioStage_aviCalls (t : Task) (w : World) (safe vop : String) (fs : FS)
    (aviC : List (String × String)) :
    (audioStage t w safe vop fs aviC).aviCalls = aviC := by
  unfold audioStage
  rcases hx : extraer_audio fs vop w.clipOpen w.wavWrite w.wavCreated with ⟨fs5, r⟩
  rcases r with e | pth
  · rfl
  · dsimp only
    by_cases hf : t.formato_audio = "MP3"
    · rw [if_pos hf]
      rcases hc : convertir_audio_a_mp3 fs5 pth
          (pyJoin t.carpeta (strCat safe ".mp3")) w.mp3 with ⟨fs6, r2⟩
      rcases r2 with e2 | u <;> rfl
    · rw [if_neg hf]

theorem audioStage_videoOut (t : Task) (w : World) (safe vop : String) (fs : FS)
    (aviC : List (String × String)) :
    (audioStage t w safe vop fs aviC).videoOut = some vop := by
  unfold audioStage
  rcases hx : extraer_audio fs vop w.clipOpen w.wavWrite w.wavCreated with ⟨fs5, r⟩
  rcases r with e | pth
  · rfl
  · dsimp only
    by_cases hf : t.formato_audio = "MP3"
    · rw [if_pos hf]
      rcases hc : convertir_audio_a_mp3 fs5 pth
          (pyJoin t.carpeta (strCat safe ".mp3")) w.mp3 with ⟨fs6, r2⟩
      rcases r2 with e2 | u <;> rfl
    · rw [if_neg hf]

theorem extraer_audio_created (fs : FS) (vp : String) :
    extraer_audio fs vp (Except.ok ()) (Except.ok ()) true
      = (fsAdd fs (wav_path_of vp), Except.ok (wav_path_of vp)) := by
  unfold extraer_audio
  dsimp only
  rw [if_pos rfl, if_pos (fsExists_fsAdd fs (wav_path_of vp))]

theorem audioStage_mp3_spec (t : Task) (w : World) (safe vop : String) (fs : FS)
    (aviC : List (String × String))
    (hco : w.clipOpen = Except.ok ()) (hww : w.wavWrite = Except.ok ())
    (hwc : w.wavCreated = true)
    (hf : t.formato_audio = "MP3") (hm : w.mp3 = Except.ok ()) :
    (audioStage t w safe vop fs aviC).mp3Calls
        = [(wav_path_of vop, pyJoin t.carpeta (strCat safe ".mp3"))] ∧
    fsExists (audioStage t w safe vop fs aviC).fs (wav_path_of vop) = false := by
  unfold audioStage
  rw [hco, hww, hwc, extraer_audio_created]
  dsimp only
  rw [if_pos hf]
  unfold convertir_audio_a_mp3 ffmpegRun
  rw [hm]
  dsimp only
  exact ⟨rfl, fsExists_remove_if_exists _ _⟩

theorem audioStage_wav_spec (t : Task) (w : World) (safe vop : String) (fs : FS)
    (aviC : List (String × String))
    (hco : w.clipOpen = Except.ok ()) (hww : w.wavWrite = Except.ok ())
    (hwc : w.wavCreated = true)
    (hf : t.formato_audio ≠ "MP3") :
    (audioStage t w safe vop fs aviC).mp3Calls = [] ∧
    fsExists (audioStage t w safe vop fs aviC).fs (wav_path_of vop) = true := by
  unfold audioStage
  rw [hco, hww, hwc, extraer_audio_created]
  dsimp only
  rw [if_neg hf]
  exact ⟨rfl, fsExists_fsAdd _ _⟩

/-- C9: with split audio requested and the collaborators succeeding, the MP3
format converts the intermediate wav to the mp3 target and then deletes the
wav, while any other audio format (in particular WAV) invokes no mp3
conversion and leaves the wav on disk as the final audio artifact. -/
theorem c9_split_audio (t : Task) (w : World) (info : Info)
    (hd : w.download = Except.ok info) (hsep : t.separar_audio = true)
    (havi : pyStartswith "avi" (pyLower t.formato_video) = true →
      w.avi = Except.ok ())
    (hco : w.clipOpen = Except.ok ()) (hww : w.wavWrite = Except.ok ())
    (hwc : w.wavCreated = true) :
    (t.formato_audio = "MP3" → w.mp3 = Except.ok () →
      (DownloadTask_run t w).mp3Calls
          = [(wav_path_of (video_out_path t info),
              pyJoin t.carpeta (strCat (sanitize_filename info.title) ".mp3"))] ∧
        fsExists (DownloadTask_run t w).fs
            (wav_path_of (video_out_path t info)) = false) ∧
    (t.formato_audio ≠ "MP3" →
      (DownloadTask_run t w).mp3Calls = [] ∧
      fsExists (DownloadTask_run t w).fs
          (wav_path_of (video_out_path t info)) = true) := by
  obtain ⟨fsx, aviC, hrb⟩ :
      ∃ fsx aviC, runBody t w
        = audioStage t w (sanitize_filename info.title) (video_out_path t info)
            fsx aviC := by
    unfold runBody
    rw [hd]
    dsimp only
    by_cases hb : pyStartswith "avi" (pyLower t.formato_video) = true
    · rw [if_pos hb]
      unfold convertir_a_avi_divx ffmpegRun
      rw [havi hb]
      dsimp only
      rw [if_pos hsep]
      rw [show video_out_path t info = avi_target_path t info from by
        unfold video_out_path
        rw [if_pos hb]]
      exact ⟨_, _, rfl⟩
    · rw [if_neg hb, if_pos hsep]
      rw [show video_out_path t info = sanitized_path t info from by
        unfold video_out_path
        rw [if_neg hb]]
      exact ⟨_, _, rfl⟩
  refine ⟨fun hf hm => ?_, fun hf => ?_⟩
  · rw [run_mp3Calls, run_fs, hrb]
    exact audioStage_mp3_spec t w _ _ fsx aviC hco hww hwc hf hm
  · rw [run_mp3Calls, run_fs, hrb]
    exact audioStage_wav_spec t w _ _ fsx aviC hco hww hwc hf

/-- Witness for C9 in the MP3 branch at a concrete successful run. -/
theorem c9_witness :
    (DownloadTask_run tAudioMp3 wMp4).mp3Calls
        = [(wav_path_of (video_out_path tAudioMp3 ⟨"v", "/d/v.mp4"⟩),
            pyJoin "/d" (strCat (sanitize_filename "v") ".mp3"))] ∧
    fsExists (DownloadTask_run tAudioMp3 wMp4).fs
        (wav_path_of (video_out_path tAudioMp3 ⟨"v", "/d/v.mp4"⟩)) = false :=
  (c9_split_audio tAudioMp3 wMp4 ⟨"v", "/d/v.mp4"⟩ rfl rfl (fun _ => rfl)
    rfl rfl rfl).1 rfl rfl

/-- C10: the video-transcode branch is selected exactly when the lowered
format string starts with avi (a case-insensitive prefix test, not an enum
match); for every other format value no video transcode is invoked and the
video artifact variable stays the sanitized download path with its original
extension. -/
theorem c10_avi_prefix_branch (t : Task) (w : World) (info : Info)
    (hd : w.download = Except.ok info) :
    ((DownloadTask_run t w).aviCalls
        = if pyStartswith "avi" (pyLower t.formato_video) = true
          then [(sanitized_path t info, avi_target_path t info)] else []) ∧
    (pyStartswith "avi" (pyLower t.formato_video) = false →
      (DownloadTask_run t w).aviCalls = [] ∧
      (DownloadTask_run t w).videoOut = some (sanitized_path t info)) := by
  rw [run_aviCalls, run_videoOut]
  unfold runBody
  rw [hd]
  dsimp only
  by_cases hb : pyStartswith "avi" (pyLower t.formato_video) = true
  · rw [if_pos hb, if_pos hb]
    refine ⟨?_, fun hfalse => ?_⟩
    · rcases hc : convertir_a_avi_divx _ _ _ w.avi with ⟨fs3, r⟩
      rcases r with e | u
      · rfl
      · dsimp only
        by_cases hs : t.separar_audio = true
        · rw [if_pos hs]
          exact audioStage_aviCalls t w _ _ _ _
        · rw [if_neg hs]
          rfl
    · rw [hfalse] at hb
      exact (Bool.false_ne_true hb).elim
  · rw [if_neg hb, if_neg hb]
    by_cases hs : t.separar_audio = true
    · rw [if_pos hs]
      exact ⟨audioStage_aviCalls t w _ _ _ _,
        fun _ => ⟨audioStage_aviCalls t w _ _ _ _, audioStage_videoOut t w _ _ _ _⟩⟩
    · rw [if_neg hs]
      exact ⟨rfl, fun _ => ⟨rfl, rfl⟩⟩

/-- Witness for C10 at a concrete avi-requesting run. -/
theorem c10_witness :
    (DownloadTask_run tVideoOnlyAvi wMp4).aviCalls
        = if pyStartswith "avi" (pyLower tVideoOnlyAvi.formato_video) = true
          then [(sanitized_path tVideoOnlyAvi ⟨"v", "/d/v.mp4"⟩,
                avi_target_path tVideoOnlyAvi ⟨"v", "/d/v.mp4"⟩)] else [] :=
  (c10_avi_prefix_branch tVideoOnlyAvi wMp4 ⟨"v", "/d/v.mp4"⟩ rfl).1

end YT
